import Mathlib

/-!
Verification of the smart-ping GitHub action
(`.github/actions/smart-ping/index.js`).

The script is a single async function `run` that launches a headless
browser, navigates to a URL with a 30000 ms `networkidle2` timeout, pauses
2000 ms, looks for a wake-up control, clicks it (then pauses 5000 ms) when
found, takes a full-page screenshot to `ping-screenshot.png`, logs a success
line, closes the browser and sets the action output `status` to `awake`;
any exception is caught at the end, logged as `Ping failed: <message>` and
surfaced through `core.setFailed`.

The embedding below is a shallow model of that control flow.  The external
world (the browser-automation library and the network) is an `Env` record
saying, for each awaited call, whether it succeeds or throws and with which
message, plus which page elements match the wake-up selector list.  A run
produces a `Trace` recording every observable effect in order: operations
attempted, console lines, fixed delays, clicked elements, screenshots
written, the browser lifecycle, the `status` output and the failure flag.
-/

namespace SmartPing

/-- Line 15 of index.js: the `timeout` option passed to `page.goto`. -/
def gotoTimeoutMs : Nat := 30000

/-- Line 18 of index.js: the argument of the first `page.waitForTimeout`. -/
def bannerWaitMs : Nat := 2000

/-- Line 25 of index.js: the argument of the post-click `page.waitForTimeout`. -/
def wakeWaitMs : Nat := 5000

/-- Line 31 of index.js: the `path` option passed to `page.screenshot`. -/
def screenshotPath : String := "ping-screenshot.png"

/-- Line 35 of index.js: the value given to `core.setOutput` for `status`. -/
def statusAwake : String := "awake"

/-- Line 21 of index.js: the comma-separated wake-control selector list
passed to `page.$`. -/
def wakeSelectors : String :=
  "button:has-text(\"Wake up\"), [data-testid=\"stAppViewContainer\"] button, .stAlert button"

/-- The message of the error `page.goto` throws when `networkidle2` is not
reached within the configured timeout (the library's timeout error for the
30000 ms bound set on line 15). -/
def navTimeoutMsg : String := "Navigation timeout of 30000 ms exceeded"

/-- The external world of one invocation: for each awaited browser call,
`none` means the call returns normally and `some e` that it throws an error
whose `.message` is `e`.  `quietAt` is the time (ms) at which the page
reaches the `networkidle2` quiet-network condition (`none`: never), and
`pageMatches` lists, in document order, the page elements matching
`wakeSelectors`. -/
structure Env where
  launchErr : Option String
  newPageErr : Option String
  quietAt : Option Nat
  queryErr : Option String
  pageMatches : List Nat
  clickErr : Option String
  screenshotErr : Option String
  closeErr : Option String
deriving DecidableEq

/-- A screenshot file as written by `page.screenshot`: its `path` and
`fullPage` options. -/
structure Shot where
  path : String
  fullPage : Bool
deriving DecidableEq

/-- The observable effects of one invocation of `run`, in order of
occurrence.  `attempts` names each awaited operation as it starts, `logs`
collects console lines (stdout and stderr together), `delays` the
`waitForTimeout` durations, `clicked` the elements clicked, `screenshots`
the files written; `output` is the value of the action output `status`
(`none`: never set) and `failedMsg` the message passed to `core.setFailed`
(`none`: never called). -/
structure Trace where
  attempts : List String
  logs : List String
  delays : List Nat
  clicked : List Nat
  screenshots : List Shot
  browserLaunched : Bool
  browserClosed : Bool
  output : Option String
  failedMsg : Option String
deriving DecidableEq

/-- The empty trace at the start of an invocation. -/
def initTrace : Trace :=
  { attempts := [], logs := [], delays := [], clicked := [], screenshots := []
    browserLaunched := false, browserClosed := false, output := none, failedMsg := none }

/-- Line 15 of index.js: `page.goto(url, waitUntil networkidle2, timeout
30000)` returns normally when the quiet-network condition is reached within
`gotoTimeoutMs`, and otherwise throws the library's timeout error. -/
def gotoResult (env : Env) : Option String :=
  match env.quietAt with
  | some t => if t ≤ gotoTimeoutMs then none else some navTimeoutMsg
  | none => some navTimeoutMsg

/-- Lines 30-35 of index.js, the tail after the detect-and-wake branch:
screenshot, success log, `browser.close()`, `core.setOutput`.  Returns the
trace so far and `some e` when a step threw `e`. -/
def finishRun (env : Env) (t : Trace) : Trace × Option String :=
  let t := { t with attempts := t.attempts ++ ["screenshot"] }
  match env.screenshotErr with
  | some e => (t, some e)
  | none =>
  let t := { t with screenshots := t.screenshots ++ [Shot.mk screenshotPath true] }
  let t := { t with logs := t.logs ++ ["Ping successful—app is active."] }
  let t := { t with attempts := t.attempts ++ ["close"] }
  match env.closeErr with
  | some e => (t, some e)
  | none =>
  let t := { t with browserClosed := true }
  ({ t with output := some statusAwake }, none)

/-- Lines 8-35 of index.js: the body of the `try` block, run step by step
against `env`.  Returns the trace of effects performed and `some e` when a
step threw an error with message `e` (aborting the rest of the body). -/
def tryBody (env : Env) : Trace × Option String :=
  let t := initTrace
  let t := { t with attempts := t.attempts ++ ["launch"] }
  match env.launchErr with
  | some e => (t, some e)
  | none =>
  let t := { t with browserLaunched := true }
  let t := { t with attempts := t.attempts ++ ["newPage"] }
  match env.newPageErr with
  | some e => (t, some e)
  | none =>
  let t := { t with attempts := t.attempts ++ ["goto"] }
  match gotoResult env with
  | some e => (t, some e)
  | none =>
  let t := { t with attempts := t.attempts ++ ["wait2000"], delays := t.delays ++ [bannerWaitMs] }
  let t := { t with attempts := t.attempts ++ ["query"] }
  match env.queryErr with
  | some e => (t, some e)
  | none =>
  match env.pageMatches.head? with
  | some el =>
    let t := { t with logs := t.logs ++ ["Sleep detected—waking up..."] }
    let t := { t with attempts := t.attempts ++ ["click"] }
    match env.clickErr with
    | some e => (t, some e)
    | none =>
    let t := { t with clicked := t.clicked ++ [el] }
    let t := { t with attempts := t.attempts ++ ["wait5000"], delays := t.delays ++ [wakeWaitMs] }
    finishRun env t
  | none =>
    let t := { t with logs := t.logs ++ ["App is already awake."] }
    finishRun env t

/-- Lines 4-40 of index.js: `run` is the `try` body wrapped in the `catch`
handler, which logs `Ping failed: <message>` to the console and calls
`core.setFailed` with the error message. -/
def run (env : Env) : Trace :=
  match tryBody env with
  | (t, none) => t
  | (t, some e) =>
    { t with logs := t.logs ++ ["Ping failed: " ++ e], failedMsg := some e }

/-- The page reaches the quiet-network (`networkidle2`) condition within the
30000 ms bound passed to `page.goto`. -/
def reachesQuietWithinTimeout (env : Env) : Prop :=
  ∃ t, env.quietAt = some t ∧ t ≤ gotoTimeoutMs

/-- `isPrefixChars p l`: the character list `p` starts the character list `l`. -/
def isPrefixChars : List Char → List Char → Bool
  | [], _ => true
  | _ :: _, [] => false
  | a :: as, b :: bs => a == b && isPrefixChars as bs

/-- `hasInfixChars p l`: the character list `p` occurs contiguously in `l`. -/
def hasInfixChars (p : List Char) : List Char → Bool
  | [] => isPrefixChars p []
  | b :: bs => isPrefixChars p (b :: bs) || hasInfixChars p bs

/-- The characters of line 31 of index.js after the semicolon that closes the
`page.screenshot(...)` statement: two spaces and then a number-sign comment
in the Python style, `# Optional: Log for debug`. -/
def line31Trailer : String := "  # Optional: Log for debug"

/-- Leading space characters removed (the line 31 trailer uses plain spaces
only). -/
def dropLeadingSpaces : List Char → List Char
  | [] => []
  | c :: cs => if c = ' ' then dropLeadingSpaces cs else c :: cs

/-- Modelled from the JavaScript grammar: text on a line after a complete,
semicolon-terminated statement belongs to a valid program only when it is
blank or opens a comment, and a JavaScript comment opens with two slashes or
with slash-star.  A number sign does not open a comment (JavaScript has no
sharp comments: a `#name` token is a private name, legal only inside a class
body, and a `#!` hashbang is legal only at the very start of a file, neither
of which line 31 is). -/
def validJsTrailerChars (s : List Char) : Bool :=
  match dropLeadingSpaces s with
  | [] => true
  | '/' :: '/' :: _ => true
  | '/' :: '*' :: _ => true
  | _ => false

/-- Whether the statement-trailing text `s` can occur in a valid JavaScript
program. -/
def validJsTrailer (s : String) : Bool := validJsTrailerChars s.toList

/-- Whether index.js is a syntactically valid JavaScript program: every line
is plain statement code except line 31, which carries trailing text after
its statement, so the file parses exactly when that trailer is valid. -/
def scriptParses : Bool := validJsTrailer line31Trailer

/-- One invocation of the script file: Node parses the whole file before
executing anything, so when parsing fails, `run` never starts (no effects,
no output) and the process fails at load time. -/
structure Invocation where
  loadOk : Bool
  trace : Trace
deriving DecidableEq

/-- Invoking the script: execute `run` only when the file parses. -/
def invoke (env : Env) : Invocation :=
  if scriptParses then ⟨true, run env⟩ else ⟨false, initTrace⟩

/-- The state an invocation could observe from earlier invocations: the
files on local disk (the only cross-invocation channel the script touches). -/
structure World where
  disk : List Shot
deriving DecidableEq

/-- One invocation of `run` against the prior world state `w`: the script
reads nothing from the prior state, and its screenshots land on disk. -/
def invokeOn (w : World) (env : Env) : World × Trace :=
  (⟨w.disk ++ (run env).screenshots⟩, run env)

/-- An environment where the page never reaches the quiet-network condition,
so navigation times out. -/
def envNavTimeout : Env := ⟨none, none, none, none, [], none, none, none⟩

/-- An environment where the page is quiet immediately and shows no
wake-control element. -/
def envIdle : Env := ⟨none, none, some 0, none, [], none, none, none⟩

/-- An environment where the page is quiet after 5 ms and elements 7 and 9
match the wake-control selectors. -/
def envWake : Env := ⟨none, none, some 5, none, [7, 9], none, none, none⟩

/-- An environment where the page reaches the quiet-network condition only
after 40000 ms, past the 30000 ms bound. -/
def envSlow : Env := ⟨none, none, some 40000, none, [], none, none, none⟩

/-- An environment where the browser launch itself throws. -/
def envBoom : Env := ⟨some "boom", none, none, none, [], none, none, none⟩

/-- An environment where a wake-control element is found but clicking it
throws. -/
def envClickThrows : Env :=
  ⟨none, none, some 0, none, [3], some "Node is detached from document", none, none⟩

set_option maxHeartbeats 1000000

/-- C1: at the concrete failing input where navigation times out, the code
launches the browser, takes the failure path, and never closes it: the
browser session is not released on the failure exit path. -/
theorem browser_leaked_on_failure_path :
    (run envNavTimeout).browserLaunched = true ∧
    (run envNavTimeout).browserClosed = false ∧
    (run envNavTimeout).failedMsg = some navTimeoutMsg := by decide

/-- C2: the `status` output is set to `awake` exactly when the try body
throws no exception; on any throw the output stays unset and the failure
flag carries a message, so success output and failure flag never coexist. -/
theorem status_awake_iff_no_exception (env : Env) :
    ((run env).output = some statusAwake ↔ (tryBody env).2 = none) ∧
    ((tryBody env).2 ≠ none → (run env).output = none ∧ (run env).failedMsg ≠ none) ∧
    ¬((run env).output = some statusAwake ∧ (run env).failedMsg ≠ none) := by
  cases hl : env.launchErr <;> cases hnp : env.newPageErr <;> cases hg : gotoResult env <;>
    cases hq : env.queryErr <;> cases hpm : env.pageMatches <;> cases hc : env.clickErr <;>
    cases hs : env.screenshotErr <;> cases hcl : env.closeErr <;>
    simp [run, tryBody, finishRun, initTrace, hl, hnp, hg, hq, hpm, hc, hs, hcl, statusAwake]

/-- C3: line 31 ends in a number-sign comment, which is not valid
JavaScript, so the file does not parse; every invocation fails at load time
and no invocation can reach the success output. -/
theorem load_failure_blocks_success :
    scriptParses = false ∧
    ∀ env : Env, (invoke env).loadOk = false ∧ (invoke env).trace.output ≠ some statusAwake := by
  have h : scriptParses = false := by decide
  exact ⟨h, fun env => by simp [invoke, h, initTrace]⟩

/-- C4: when the page loads in time and no element matches the wake-control
selectors (and no browser call throws), the run clicks nothing and still
sets the success output `awake`. -/
theorem no_wake_element_no_click_success (env : Env)
    (hl : env.launchErr = none) (hnp : env.newPageErr = none)
    (hg : gotoResult env = none) (hq : env.queryErr = none)
    (hpm : env.pageMatches = []) (hs : env.screenshotErr = none)
    (hcl : env.closeErr = none) :
    (run env).clicked = [] ∧ (run env).output = some statusAwake := by
  simp [run, tryBody, finishRun, initTrace, hl, hnp, hg, hq, hpm, hs, hcl]

/-- C4 witness: the idle-page environment loads at once with no wake
element; the run clicks nothing and reports `awake`. -/
theorem no_wake_element_no_click_success_witness :
    (run envIdle).clicked = [] ∧ (run envIdle).output = some statusAwake :=
  no_wake_element_no_click_success envIdle rfl rfl (by decide) rfl rfl rfl rfl

/-- C5: when the page loads in time and the wake-control selector list has
matches, the run clicks exactly the first match in document order, once,
and still sets the success output `awake`. -/
theorem wake_element_clicked_once (env : Env) (el : Nat) (rest : List Nat)
    (hl : env.launchErr = none) (hnp : env.newPageErr = none)
    (hg : gotoResult env = none) (hq : env.queryErr = none)
    (hpm : env.pageMatches = el :: rest) (hc : env.clickErr = none)
    (hs : env.screenshotErr = none) (hcl : env.closeErr = none) :
    (run env).clicked = [el] ∧ (run env).output = some statusAwake := by
  simp [run, tryBody, finishRun, initTrace, hl, hnp, hg, hq, hpm, hc, hs, hcl]

/-- C5 witness: with elements 7 and 9 matching, the run clicks element 7
only and reports `awake`. -/
theorem wake_element_clicked_once_witness :
    (run envWake).clicked = [7] ∧ (run envWake).output = some statusAwake :=
  wake_element_clicked_once envWake 7 [9] rfl rfl (by decide) rfl rfl rfl rfl rfl

/-- C6: when the quiet-network condition is not reached within the 30000 ms
bound, the run fails with the navigation-timeout message, a timeout-related
text, and never sets the success output. -/
theorem nav_timeout_yields_failure (env : Env)
    (hl : env.launchErr = none) (hnp : env.newPageErr = none)
    (h : ¬ reachesQuietWithinTimeout env) :
    (run env).failedMsg = some navTimeoutMsg ∧ (run env).output = none ∧
    hasInfixChars "timeout".toList navTimeoutMsg.toList = true := by
  have hg : gotoResult env = some navTimeoutMsg := by
    unfold gotoResult
    cases hqa : env.quietAt with
    | none => rfl
    | some t =>
      have hnle : ¬ t ≤ gotoTimeoutMs := fun hle => h ⟨t, hqa, hle⟩
      simp [hnle]
  refine ⟨?_, ?_, by decide⟩ <;>
    simp [run, tryBody, initTrace, hl, hnp, hg]

/-- C6 witness: a page quiet only after 40000 ms exceeds the bound; the run
fails with the timeout message and sets no success output. -/
theorem nav_timeout_yields_failure_witness :
    (run envSlow).failedMsg = some navTimeoutMsg ∧ (run envSlow).output = none ∧
    hasInfixChars "timeout".toList navTimeoutMsg.toList = true :=
  nav_timeout_yields_failure envSlow rfl rfl
    (by rintro ⟨t, ht, hle⟩; simp [envSlow] at ht; subst ht; simp [gotoTimeoutMs] at hle)

/-- C7: any exception thrown inside the try body is caught once at the
outermost level: the failure flag carries its message, a console line holds
that message verbatim after the `Ping failed` prefix, and no operation is
attempted twice. -/
theorem exception_caught_logged_once (env : Env) (e : String)
    (h : (tryBody env).2 = some e) :
    (run env).failedMsg = some e ∧
    ("Ping failed: " ++ e) ∈ (run env).logs ∧
    (run env).attempts.Nodup := by
  cases hl : env.launchErr <;> cases hnp : env.newPageErr <;> cases hg : gotoResult env <;>
    cases hq : env.queryErr <;> cases hpm : env.pageMatches <;> cases hc : env.clickErr <;>
    cases hs : env.screenshotErr <;> cases hcl : env.closeErr <;>
    simp_all [run, tryBody, finishRun, initTrace]

/-- C7 witness: when the launch throws `boom`, the run fails with `boom`,
logs it verbatim, and attempts nothing twice. -/
theorem exception_caught_logged_once_witness :
    (run envBoom).failedMsg = some "boom" ∧
    ("Ping failed: " ++ "boom") ∈ (run envBoom).logs ∧
    (run envBoom).attempts.Nodup :=
  exception_caught_logged_once envBoom "boom" (by decide)

/-- C8 counterexample: in a run that reaches the post-navigation phase and
finds a wake-control element, whose click then throws, the 5-second settle
pause never happens, so the pause does not occur if and only if an element
was found. -/
theorem settle_pause_missing_when_click_throws :
    (run envClickThrows).attempts.take 5 = ["launch", "newPage", "goto", "wait2000", "query"] ∧
    envClickThrows.pageMatches ≠ [] ∧
    "click" ∈ (run envClickThrows).attempts ∧
    (run envClickThrows).delays = [bannerWaitMs] := by decide

/-- C8 amended: in every run that reaches the post-navigation phase, the
2000 ms pause happens right after navigation and before the wake-control
lookup, and the 5000 ms settle pause happens exactly when an element was
found and its click did not throw; no other fixed delay occurs. -/
theorem fixed_delays_characterized (env : Env)
    (hl : env.launchErr = none) (hnp : env.newPageErr = none)
    (hg : gotoResult env = none) :
    (run env).attempts.take 5 = ["launch", "newPage", "goto", "wait2000", "query"] ∧
    (run env).delays =
      bannerWaitMs ::
        (if env.queryErr = none ∧ env.pageMatches ≠ [] ∧ env.clickErr = none
          then [wakeWaitMs] else []) := by
  cases hq : env.queryErr <;> cases hpm : env.pageMatches <;> cases hc : env.clickErr <;>
    cases hs : env.screenshotErr <;> cases hcl : env.closeErr <;>
    simp [run, tryBody, finishRun, initTrace, hl, hnp, hg, hq, hpm, hc, hs, hcl]

/-- C8 amended witness: with a wake element present and a clean click, the
delays are exactly 2000 ms then 5000 ms, in order. -/
theorem fixed_delays_characterized_witness :
    (run envWake).attempts.take 5 = ["launch", "newPage", "goto", "wait2000", "query"] ∧
    (run envWake).delays =
      bannerWaitMs ::
        (if envWake.queryErr = none ∧ envWake.pageMatches ≠ [] ∧ envWake.clickErr = none
          then [wakeWaitMs] else []) :=
  fixed_delays_characterized envWake rfl rfl (by decide)

/-- C9: a successful run writes exactly one screenshot, full-page, at
`ping-screenshot.png`, attempted after the detect-and-wake branch and right
before the browser close; a run that aborts before the screenshot step
writes none. -/
theorem screenshot_once_on_success (env : Env) :
    ((run env).output = some statusAwake →
      (run env).screenshots = [Shot.mk screenshotPath true] ∧
      (run env).attempts.drop ((run env).attempts.length - 2) = ["screenshot", "close"]) ∧
    ("screenshot" ∉ (run env).attempts → (run env).screenshots = []) := by
  cases hl : env.launchErr <;> cases hnp : env.newPageErr <;> cases hg : gotoResult env <;>
    cases hq : env.queryErr <;> cases hpm : env.pageMatches <;> cases hc : env.clickErr <;>
    cases hs : env.screenshotErr <;> cases hcl : env.closeErr <;>
    simp [run, tryBody, finishRun, initTrace, hl, hnp, hg, hq, hpm, hc, hs, hcl,
      statusAwake, screenshotPath]

/-- C10: an invocation is deterministic and stateless: its trace does not
depend on what earlier invocations left on disk, and a second sequential
invocation with the same URL and page behavior yields the same trace. -/
theorem run_deterministic_stateless (w v : World) (env : Env) :
    (invokeOn w env).2 = (invokeOn v env).2 ∧
    (invokeOn (invokeOn w env).1 env).2 = (invokeOn w env).2 :=
  ⟨rfl, rfl⟩

end SmartPing
